import Mathlib

/-!
Formal model of the orchestration gateway of the `openAI_Assistant` backend.

The definitions below are a shallow embedding of:
  * `backend/app/routers/orchestrate.py` — the `/orchestrate` endpoint handler,
    the in-memory job store, the background worker `execute_with_callback`,
    and the `/callbacks/ingest` endpoint;
  * `backend/app/core/orchestrator.py` — `auto_select_mode`, `dispatch`,
    `run_agent`, `run_mcp` (the flow executor is abstracted as an oracle,
    since it is a remote HTTP call);
  * `backend/app/tools/__init__.py` — the tool registry (tool bodies are
    abstracted as an oracle, since they perform I/O).

Modelling conventions:
  * Python JSON-ish values are the inductive `Json`; Python dicts with string
    keys are association lists in insertion order (`PyDict`), matching
    Python dict iteration order.
  * The job store `_job_store : Dict[str, Any]` is an association list keyed
    by `Json` (Python dict keys must be hashable, hence scalar; `jsonKeyEqb`
    is Python `==` on such keys — the `bool`/`int` cross-equality quirk of
    Python is not modelled, no key in the program exercises it).
  * Network and tool side effects are oracles passed as function arguments
    (`flowRun` for the n8n webhook call, `toolRun` for local tool bodies);
    whether the 8-second fast-path `asyncio.wait_for` bound elapsed is the
    boolean `timedOut`; `hash` abstracts `hashlib.sha256(...).hexdigest()`
    (only determinism of the hash matters to any property here).
  * `uuid.uuid4().hex[:8]` is the oracle string `freshJob`.
  * The `trace` dictionary is not modelled: it is never used for control
    decisions and only flows into logs.
  * Exceptions become `Except`; an exception that no handler catches
    (the `NameError` of the handler, `KeyError` on a cached record with no
    `"status"` key, `TypeError` on an unhashable ingested job id) is a
    `PyFailure` distinct from `fastapi.HTTPException`.
-/

/-- Python JSON-ish runtime values. -/
inductive Json where
  | null : Json
  | bool : Bool → Json
  | num : Int → Json
  | str : String → Json
  | arr : List Json → Json
  | obj : List (String × Json) → Json

/-- A Python dict with string keys, in insertion order. -/
abbrev PyDict := List (String × Json)

/-- `d.get(k)` on a Python dict (first binding wins; keys are unique in a
real Python dict, and every dict the program builds has unique keys). -/
def dictGet : PyDict → String → Option Json
  | [], _ => none
  | (k2, v) :: rest, k => if k2 == k then some v else dictGet rest k

/-- Python truthiness of a JSON-ish value. -/
def pyTruthy : Json → Bool
  | Json.null => false
  | Json.bool b => b
  | Json.num n => n != 0
  | Json.str s => s != ""
  | Json.arr l => !l.isEmpty
  | Json.obj l => !l.isEmpty

/-- Truthiness of the result of `d.get(k)` (`None` when the key is absent). -/
def pyTruthyOpt : Option Json → Bool
  | none => false
  | some j => pyTruthy j

/-- Python `==` on values usable as dict keys. Lists and dicts are
unhashable in Python and can never be dict keys, so the comparison on them
is irrelevant (the model returns `false`; `ingest_callback` rejects them
before storing). -/
def jsonKeyEqb : Json → Json → Bool
  | Json.null, Json.null => true
  | Json.bool a, Json.bool b => a == b
  | Json.num a, Json.num b => a == b
  | Json.str a, Json.str b => a == b
  | _, _ => false

/-- Whether a value may be used as a Python dict key (hashable). -/
def jsonHashable : Json → Bool
  | Json.arr _ => false
  | Json.obj _ => false
  | _ => true

/-- The in-memory job store `_job_store`, keyed by job id, insertion order. -/
abbrev Store := List (Json × PyDict)

/-- Read `_job_store[k]`. -/
def storeGet : Store → Json → Option PyDict
  | [], _ => none
  | (k2, d) :: rest, k => if jsonKeyEqb k2 k then some d else storeGet rest k

/-- `_job_store[k] = d`: replace in place if the key exists (Python dicts
keep the original position), else append. -/
def storeSet : Store → Json → PyDict → Store
  | [], k, d => [(k, d)]
  | (k2, d2) :: rest, k, d =>
      if jsonKeyEqb k2 k then (k2, d) :: rest else (k2, d2) :: storeSet rest k d

/-- The `"status"` field of the record stored under key `k`, if any. -/
def store_status (st : Store) (k : Json) : Option Json :=
  match storeGet st k with
  | none => none
  | some d => dictGet d "status"

/-- Whether field `k` of a record is populated (present and not JSON null). -/
def populated (d : PyDict) (k : String) : Bool :=
  match dictGet d k with
  | none => false
  | some Json.null => false
  | some _ => true

/-! ## `app/core/orchestrator.py` -/

/-- Execution mode (`class Mode(str, Enum)`). -/
inductive Mode where
  | flow : Mode
  | mcp : Mode
  | agent : Mode
  | auto : Mode
deriving DecidableEq, Repr

/-- Python `s.startswith(p)`, over the character list of the string. -/
def strStarts (s p : String) : Bool := s.data.take p.data.length == p.data

/-- Python `s.endswith(p)`, over the character list of the string. -/
def strEnds (s p : String) : Bool := s.data.drop (s.data.length - p.data.length) == p.data

/-- `auto_select_mode` — heuristic mode selection, translated branch by
branch (`inputs` is accepted but never consulted, as in the source). -/
def auto_select_mode (intent : String) (inputs : PyDict) : Mode :=
  if strEnds intent ".peek" || strEnds intent ".read" then Mode.agent
  else if strStarts intent "memory." then Mode.agent
  else if strStarts intent "gmail." || strStarts intent "digest."
          || strStarts intent "workflow." then Mode.flow
  else if strStarts intent "fs." then Mode.flow
  else if strStarts intent "ssh." then Mode.agent
  else Mode.flow

/-- Modelled from the spec: the ordered first-match policy of §4.1
(read-only suffix → Agent; local memory namespace → Agent; multi-system or
external-mount namespaces → Flow; direct-infrastructure namespace → Agent;
default → Flow), for comparison with `auto_select_mode`. -/
def mode_policy (intent : String) : Mode :=
  if strEnds intent ".peek" || strEnds intent ".read" then Mode.agent
  else if strStarts intent "memory." then Mode.agent
  else if strStarts intent "gmail." || strStarts intent "digest."
          || strStarts intent "workflow." || strStarts intent "fs." then Mode.flow
  else if strStarts intent "ssh." then Mode.agent
  else Mode.flow

/-- The keys of `TOOL_REGISTRY` in `app/tools/__init__.py`. The registered
callables themselves are I/O and are abstracted by the `toolRun` oracle. -/
def TOOL_REGISTRY : List String :=
  ["memory.write", "memory.store", "memory.search", "memory.query", "memory.list",
   "gmail.triage", "gmail.search", "gmail.recent",
   "fs.list", "fs.read", "fs.head",
   "ssh.exec", "ssh.exec.peek", "ssh.run"]

/-- `get_tool(intent) is not None`. -/
def registered (intent : String) : Bool := TOOL_REGISTRY.contains intent

/-- Outcome of awaiting a registered tool callable (`await tool(**inputs)`):
either a result dict or a raised exception message. -/
inductive ExecOutcome where
  | ok : PyDict → ExecOutcome
  | exc : String → ExecOutcome

/-- Errors raised by `run_agent`: `IntentNotFoundError` or the generic
`OrchestratorError` wrapper. -/
inductive AgentErr where
  | notFound : String → AgentErr
  | orch : String → AgentErr

/-- The `IntentNotFoundError` message of `run_agent` (Python repr quoting of
the intent and the list brackets are simplified; only the text prefix and
the intent matter to any property). -/
def not_found_msg (intent : String) : String :=
  "Intent " ++ intent ++ " not found. Available: " ++ String.intercalate ", " TOOL_REGISTRY

/-- The `try: result = await tool(**inputs) ... except Exception` tail of
`run_agent`: a tool exception becomes `OrchestratorError`. -/
def agent_tool_call (toolRun : String → PyDict → ExecOutcome)
    (intent : String) (inputs : PyDict) : Except AgentErr PyDict :=
  match toolRun intent inputs with
  | ExecOutcome.ok r => Except.ok r
  | ExecOutcome.exc m => Except.error (AgentErr.orch ("Agent execution failed: " ++ m))

/-- The `"not executed"` payload returned by the `ssh.exec` safety gate. -/
def dry_run_result (inputs : PyDict) : PyDict :=
  [("dry_run", Json.bool true),
   ("would_execute", Json.obj inputs),
   ("note", Json.str "Set confirm_dangerous=true to execute"),
   ("hint", Json.str "Use ssh.exec.peek for read-only operations")]

/-- `run_agent`: registry lookup, the `ssh.exec`/`confirm_dangerous` safety
gate (a truthiness check via `inputs.get`), then the tool call. -/
def run_agent (toolRun : String → PyDict → ExecOutcome)
    (intent : String) (inputs : PyDict) : Except AgentErr PyDict :=
  if registered intent = false then
    Except.error (AgentErr.notFound (not_found_msg intent))
  else if intent == "ssh.exec" && !(pyTruthyOpt (dictGet inputs "confirm_dangerous")) then
    Except.ok (dry_run_result inputs)
  else
    agent_tool_call toolRun intent inputs

/-- The stub result of `run_mcp` (the `trace` entry is omitted with the rest
of trace handling). -/
def mcp_stub_result (intent : String) (inputs : PyDict) : PyDict :=
  [("note", Json.str "MCP path stubbed - not yet implemented"),
   ("intent", Json.str intent),
   ("inputs", Json.obj inputs)]

/-- What `await dispatch(...)` can do, as seen by its callers: return a
result dict, raise `IntentNotFoundError`, or raise `OrchestratorError`
(`run_flow` and `run_agent` wrap every other exception into the latter). -/
inductive DispatchOutcome where
  | ok : PyDict → DispatchOutcome
  | intentNotFound : String → DispatchOutcome
  | orchestratorError : String → DispatchOutcome

/-- `dispatch`: resolve `auto` via `auto_select_mode`, then route. The flow
executor is the oracle `flowRun` (its `Except.error` message is the final
`OrchestratorError` text built by `run_flow`). -/
def dispatch (flowRun : String → PyDict → Except String PyDict)
    (toolRun : String → PyDict → ExecOutcome)
    (mode : Mode) (intent : String) (inputs : PyDict) : DispatchOutcome :=
  let selected := if mode = Mode.auto then auto_select_mode intent inputs else mode
  match selected with
  | Mode.flow =>
      match flowRun intent inputs with
      | Except.ok r => DispatchOutcome.ok r
      | Except.error m => DispatchOutcome.orchestratorError m
  | Mode.mcp => DispatchOutcome.ok (mcp_stub_result intent inputs)
  | Mode.agent =>
      match run_agent toolRun intent inputs with
      | Except.ok r => DispatchOutcome.ok r
      | Except.error (AgentErr.notFound m) => DispatchOutcome.intentNotFound m
      | Except.error (AgentErr.orch m) => DispatchOutcome.orchestratorError m
  | Mode.auto => DispatchOutcome.orchestratorError "Unknown mode: auto"

/-! ## Idempotency key (`generate_idempotency_key`)

`json.dumps({"intent": intent, "inputs": inputs}, sort_keys=True)` followed
by a hash. The renderer sorts object fields by key at every level; values
are rendered before the (stable, key-only) sort, which yields the same
string as sorting first. -/

/-- A JSON string literal (escaping of backslash and quote as in
`json.dumps`; other escapes do not occur in the keys/values at play). -/
def renderJString (s : String) : String :=
  "\"" ++ ((s.replace "\\" "\\\\").replace "\"" "\\\"") ++ "\""

/-- Key-ordering relation used for `sort_keys=True`. -/
def keyLe (a b : String × String) : Prop := a.1 ≤ b.1

instance : DecidableRel keyLe := fun a b => inferInstanceAs (Decidable (a.1 ≤ b.1))

instance : IsTotal (String × String) keyLe := ⟨fun a b => le_total a.1 b.1⟩

instance : IsTrans (String × String) keyLe := ⟨fun _ _ _ h h2 => le_trans h h2⟩

/-- Sort rendered object fields by key (a stable sort, like Python sorting). -/
def sortPairs (l : List (String × String)) : List (String × String) :=
  l.insertionSort keyLe

mutual
/-- `json.dumps(v, sort_keys=True)` with default separators. -/
def renderJson : Json → String
  | Json.null => "null"
  | Json.bool b => if b then "true" else "false"
  | Json.num n => toString n
  | Json.str s => renderJString s
  | Json.arr xs => "[" ++ String.intercalate ", " (renderElems xs) ++ "]"
  | Json.obj kvs =>
      "\x7b" ++ String.intercalate ", "
        ((sortPairs (renderFields kvs)).map fun q => renderJString q.1 ++ ": " ++ q.2)
      ++ "\x7d"

/-- Render array elements in order. -/
def renderElems : List Json → List String
  | [] => []
  | x :: xs => renderJson x :: renderElems xs

/-- Render object fields (keys paired with rendered values), in list order;
the caller sorts by key. -/
def renderFields : List (String × Json) → List (String × String)
  | [] => []
  | (k, v) :: rest => (k, renderJson v) :: renderFields rest
end

/-- The serialized `{"intent": ..., "inputs": ...}` payload. -/
def canonical_dumps (intent : String) (inputs : PyDict) : String :=
  renderJson (Json.obj [("intent", Json.str intent), ("inputs", Json.obj inputs)])

/-- `generate_idempotency_key`; `hash` abstracts
`hashlib.sha256(payload.encode()).hexdigest()`. -/
def generate_idempotency_key (hash : String → String)
    (intent : String) (inputs : PyDict) : String :=
  hash (canonical_dumps intent inputs)

/-! ## `app/routers/orchestrate.py` -/

/-- `OrchestrateRequest` (the unmodelled `trace` field omitted). -/
structure OrchestrateRequest where
  intent : String
  inputs : PyDict
  mode : Mode
  callback_url : Option String
  idempotency_key : Option String

/-- `OrchestrateResponse`. `job_id` and `status` are `Json` because the
cached-hit branch passes stored values through unvalidated. -/
structure OrchestrateResponse where
  job_id : Json
  status : Json
  result : Option Json := none
  error : Option Json := none
  will_callback : Bool := false
  idempotency_key : Option String := none

/-- A request failure: an `HTTPException`, or an exception no handler
catches (`KeyError` on a cached record without `"status"`, the `NameError`
of the handler, `TypeError` on an unhashable ingested job id). -/
inductive PyFailure where
  | http : Nat → String → PyFailure
  | keyError : String → PyFailure
  | nameError : String → PyFailure
  | typeError : String → PyFailure

/-- The arguments captured by `background_tasks.add_task(execute_with_callback, ...)`. -/
structure BackgroundTask where
  job_id : String
  intent : String
  mode : Mode
  inputs : PyDict
  callback_url : Option String

/-- The observable effect of one handler run: the HTTP response, the job
store afterwards, the background task scheduled (if any), and how many
times `dispatch` was awaited (a re-execution after a fast-path timeout
counts the abandoned attempt). -/
structure BodyResult where
  response : Except PyFailure OrchestrateResponse
  store : Store
  scheduled : Option BackgroundTask
  dispatchCalls : Nat

/-- `idem_key = req.idempotency_key or generate_idempotency_key(...)`:
Python `or` falls through on a falsy (empty) supplied key. -/
def compute_idem_key (hash : String → String) (req : OrchestrateRequest) : String :=
  match req.idempotency_key with
  | some k => if k == "" then generate_idempotency_key hash req.intent req.inputs else k
  | none => generate_idempotency_key hash req.intent req.inputs

/-- `stored_data.get("idempotency_key") == idem_key` (a non-string stored
value never equals the string key, as in Python). -/
def matches_idem (d : PyDict) (k : String) : Bool :=
  match dictGet d "idempotency_key" with
  | some (Json.str s) => s == k
  | _ => false

/-- The `for stored_job_id, stored_data in _job_store.items()` scan: first
record whose `idempotency_key` equals the key. -/
def find_cached : Store → String → Option (Json × PyDict)
  | [], _ => none
  | e :: rest, k => if matches_idem e.2 k then some e else find_cached rest k

/-- `is_fast_intent`. -/
def is_fast_intent (req : OrchestrateRequest) : Bool :=
  strEnds req.intent ".peek" || strEnds req.intent ".read" || req.mode == Mode.agent

/-- The record stored by the synchronous success path. -/
def sync_success_record (job_id intent : String) (result : PyDict) (idem : String) : PyDict :=
  [("job_id", Json.str job_id), ("intent", Json.str intent),
   ("status", Json.str "succeeded"), ("result", Json.obj result),
   ("idempotency_key", Json.str idem)]

/-- The record stored when a job is queued for background execution. -/
def queued_record (job_id intent idem : String) : PyDict :=
  [("job_id", Json.str job_id), ("intent", Json.str intent),
   ("status", Json.str "queued"), ("idempotency_key", Json.str idem)]

/-- `JobCallbackPayload(...).dict()` as stored by `execute_with_callback`.
Note: it has no `idempotency_key` field. -/
def callback_payload (job_id intent status : String)
    (result err : Option Json) (latency : Int) : PyDict :=
  [("job_id", Json.str job_id), ("intent", Json.str intent),
   ("status", Json.str status),
   ("result", result.getD Json.null), ("error", err.getD Json.null),
   ("metrics", Json.obj [("latency_ms", Json.num latency)]),
   ("logs", Json.arr [])]

/-- The first atomic segment of the handler body (lines 206–249): job-id
generation, idempotency-key computation, the cache scan, and the fast/slow
classification. It ends either with an early return, or at the.
`await asyncio.wait_for(dispatch(...))` suspension point, or about to take
the background path (which has no suspension before the store write). -/
inductive Seg1Out where
  | finished : Except PyFailure OrchestrateResponse → Seg1Out
  | toDispatch : String → String → Seg1Out
  | toBackground : String → String → Seg1Out

/-- Lines 206–249 of the handler. A cache hit replays the stored record
(`stored_data["status"]` raises `KeyError` when absent). -/
def orchestrate_seg1 (hash : String → String) (freshJob : String)
    (req : OrchestrateRequest) (store : Store) : Seg1Out :=
  let job_id := "job_" ++ freshJob
  let idem_key := compute_idem_key hash req
  match find_cached store idem_key with
  | some e =>
      match dictGet e.2 "status" with
      | none => Seg1Out.finished (Except.error (PyFailure.keyError "status"))
      | some st =>
          Seg1Out.finished (Except.ok
            { job_id := e.1, status := st,
              result := dictGet e.2 "result", error := dictGet e.2 "error",
              will_callback := false, idempotency_key := some idem_key })
  | none =>
      if is_fast_intent req then Seg1Out.toDispatch job_id idem_key
      else Seg1Out.toBackground job_id idem_key

/-- Lines 286–310: schedule `execute_with_callback`, store the queued
record, return the `"queued"` response. -/
def background_enqueue (job_id idem_key : String)
    (req : OrchestrateRequest) (store : Store) : BodyResult :=
  { response := Except.ok
      { job_id := Json.str job_id, status := Json.str "queued",
        result := none, error := none,
        will_callback := req.callback_url.isSome,
        idempotency_key := some idem_key },
    store := storeSet store (Json.str job_id) (queued_record job_id req.intent idem_key),
    scheduled := some
      { job_id := job_id, intent := req.intent, mode := req.mode,
        inputs := req.inputs, callback_url := req.callback_url },
    dispatchCalls := 0 }

/-- Resumption after the fast-path `dispatch` completed within the bound
(lines 252–284): store and return on success, map `IntentNotFoundError` to
404 and `OrchestratorError` to 500 without touching the store. -/
def fast_completion (o : DispatchOutcome) (job_id idem_key : String)
    (req : OrchestrateRequest) (store : Store) : BodyResult :=
  match o with
  | DispatchOutcome.ok r =>
      { response := Except.ok
          { job_id := Json.str job_id, status := Json.str "succeeded",
            result := some (Json.obj r), error := none,
            will_callback := false, idempotency_key := some idem_key },
        store := storeSet store (Json.str job_id)
          (sync_success_record job_id req.intent r idem_key),
        scheduled := none, dispatchCalls := 1 }
  | DispatchOutcome.intentNotFound m =>
      { response := Except.error (PyFailure.http 404 ("Intent not found: " ++ m)),
        store := store, scheduled := none, dispatchCalls := 1 }
  | DispatchOutcome.orchestratorError m =>
      { response := Except.error (PyFailure.http 500 ("Orchestration error: " ++ m)),
        store := store, scheduled := none, dispatchCalls := 1 }

/-- Lines 206–310 of the handler: the dispatch-and-job logic after
authentication. A fast-path timeout (`except asyncio.TimeoutError`) falls
through to the background path with the same job id. -/
def orchestrate_body (hash : String → String)
    (flowRun : String → PyDict → Except String PyDict)
    (toolRun : String → PyDict → ExecOutcome)
    (timedOut : Bool) (freshJob : String)
    (req : OrchestrateRequest) (store : Store) : BodyResult :=
  match orchestrate_seg1 hash freshJob req store with
  | Seg1Out.finished r =>
      { response := r, store := store, scheduled := none, dispatchCalls := 0 }
  | Seg1Out.toBackground j i => background_enqueue j i req store
  | Seg1Out.toDispatch j i =>
      if timedOut then
        let b := background_enqueue j i req store
        { b with dispatchCalls := 1 }
      else
        fast_completion (dispatch flowRun toolRun req.mode req.intent req.inputs)
          j i req store

/-- The effect of one background-worker run (`execute_with_callback`): the
single store write it performs and the payload it builds. Outbound callback
delivery is fire-and-forget (logged only) and has no effect on the store. -/
structure WorkerResult where
  store : Store
  payload : PyDict
  dispatchCalls : Nat

/-- `execute_with_callback`, lines 90–155: one `dispatch`, then one store
write of a `JobCallbackPayload` dict — `"succeeded"` with the result, or
`"failed"` with the error text (`IntentNotFoundError` is prefixed). -/
def execute_with_callback (flowRun : String → PyDict → Except String PyDict)
    (toolRun : String → PyDict → ExecOutcome)
    (latency : Int) (task : BackgroundTask) (store : Store) : WorkerResult :=
  let payload :=
    match dispatch flowRun toolRun task.mode task.intent task.inputs with
    | DispatchOutcome.ok r =>
        callback_payload task.job_id task.intent "succeeded" (some (Json.obj r)) none latency
    | DispatchOutcome.intentNotFound m =>
        callback_payload task.job_id task.intent "failed" none
          (some (Json.str ("Intent not found: " ++ m))) latency
    | DispatchOutcome.orchestratorError m =>
        callback_payload task.job_id task.intent "failed" none
          (some (Json.str m)) latency
  { store := storeSet store (Json.str task.job_id) payload,
    payload := payload, dispatchCalls := 1 }

/-- `/callbacks/ingest`, lines 334–363: reject a missing or falsy
`job_id`, then store the payload verbatim under it. -/
def ingest_callback (payload : PyDict) (store : Store) :
    Except PyFailure (PyDict × Store) :=
  match dictGet payload "job_id" with
  | none => Except.error (PyFailure.http 400 "Missing job_id in payload")
  | some j =>
      if pyTruthy j = false then
        Except.error (PyFailure.http 400 "Missing job_id in payload")
      else if jsonHashable j = false then
        Except.error (PyFailure.typeError "unhashable job_id")
      else
        Except.ok ([("status", Json.str "ok"), ("job_id", j)], storeSet store j payload)

/-- The store after an ingest call (unchanged when the call errors). -/
def ingest_store (payload : PyDict) (store : Store) : Store :=
  match ingest_callback payload store with
  | Except.ok r => r.2
  | Except.error _ => store

/-! ## The handler itself (lines 180–310), including the auth prologue -/

/-- Names bound in the scope of the `orchestrate` function body when line
202 executes: its parameters and the function-local
`from app.deps.auth import api_auth`. -/
def handler_local_names : List String :=
  ["req", "background_tasks", "_token", "api_auth"]

/-- Module-level names of `app/routers/orchestrate.py` (imports and
module definitions). -/
def orchestrate_module_globals : List String :=
  ["APIRouter", "HTTPException", "BackgroundTasks", "Depends",
   "HTTPAuthorizationCredentials", "BaseModel", "Field", "Optional", "Dict", "Any",
   "hashlib", "json", "uuid", "logging", "asyncio", "httpx",
   "api_auth", "security", "dispatch", "Mode", "OrchestratorError",
   "IntentNotFoundError", "logger", "router", "_job_store",
   "OrchestrateRequest", "OrchestrateResponse", "JobCallbackPayload",
   "generate_idempotency_key", "execute_with_callback",
   "orchestrate", "get_job_status", "ingest_callback"]

/-- Whether a name resolves in the handler body (locals, then globals;
no Python builtin is named `authorization`). -/
def handler_scope_has (n : String) : Bool :=
  handler_local_names.contains n || orchestrate_module_globals.contains n

/-- The full `orchestrate` handler: line 202 evaluates
`await api_auth(authorization)`; evaluating the name `authorization` in the
handler scope raises `NameError` when unbound, which the
`except HTTPException` clause does not catch. `authOk` abstracts whether
`api_auth` would accept the credentials were the name bound. -/
def orchestrate_handler (hash : String → String)
    (flowRun : String → PyDict → Except String PyDict)
    (toolRun : String → PyDict → ExecOutcome)
    (timedOut authOk : Bool) (freshJob : String)
    (req : OrchestrateRequest) (store : Store) : BodyResult :=
  if handler_scope_has "authorization" then
    if authOk then orchestrate_body hash flowRun toolRun timedOut freshJob req store
    else { response := Except.error (PyFailure.http 401 "Unauthorized"),
           store := store, scheduled := none, dispatchCalls := 0 }
  else
    { response := Except.error (PyFailure.nameError "authorization"),
      store := store, scheduled := none, dispatchCalls := 0 }

/-! ## Two concurrent requests, interleaved at the await points

A single-threaded asyncio event loop runs handler code atomically between
`await` suspension points. The only suspension between the idempotency scan
and the store write is the fast path's `await asyncio.wait_for(dispatch ...)`;
the background path's scan+write is one atomic block. -/

/-- Per-request configuration (its oracle values and the request itself). -/
structure ThreadCfg where
  freshJob : String
  timedOut : Bool
  req : OrchestrateRequest

/-- Where a request's handler currently is. -/
inductive ThreadPhase where
  | start : ThreadPhase
  | suspended : String → String → ThreadPhase
  | finished : Except PyFailure OrchestrateResponse → ThreadPhase

/-- State of two interleaved handler runs over the shared store and the
shared background-task queue. -/
structure TwoReqState where
  store : Store
  tasks : List BackgroundTask
  ph1 : ThreadPhase
  ph2 : ThreadPhase

/-- Run one atomic step of one request against the shared state. -/
def thread_step (hash : String → String)
    (flowRun : String → PyDict → Except String PyDict)
    (toolRun : String → PyDict → ExecOutcome)
    (cfg : ThreadCfg) (store : Store) (tasks : List BackgroundTask)
    (ph : ThreadPhase) : Store × List BackgroundTask × ThreadPhase :=
  match ph with
  | ThreadPhase.start =>
      match orchestrate_seg1 hash cfg.freshJob cfg.req store with
      | Seg1Out.finished r => (store, tasks, ThreadPhase.finished r)
      | Seg1Out.toBackground j i =>
          let b := background_enqueue j i cfg.req store
          (b.store, tasks ++ b.scheduled.toList, ThreadPhase.finished b.response)
      | Seg1Out.toDispatch j i => (store, tasks, ThreadPhase.suspended j i)
  | ThreadPhase.suspended j i =>
      let b :=
        if cfg.timedOut then background_enqueue j i cfg.req store
        else fast_completion (dispatch flowRun toolRun cfg.req.mode cfg.req.intent cfg.req.inputs)
               j i cfg.req store
      (b.store, tasks ++ b.scheduled.toList, ThreadPhase.finished b.response)
  | ThreadPhase.finished r => (store, tasks, ThreadPhase.finished r)

/-- Interleave two requests under a schedule (`false` steps request 1,
`true` steps request 2), starting from an empty store. -/
def run_two (hash : String → String)
    (flowRun : String → PyDict → Except String PyDict)
    (toolRun : String → PyDict → ExecOutcome)
    (cfg1 cfg2 : ThreadCfg) (sched : List Bool) : TwoReqState :=
  sched.foldl
    (fun s pick =>
      if pick then
        let r := thread_step hash flowRun toolRun cfg2 s.store s.tasks s.ph2
        { s with store := r.1, tasks := r.2.1, ph2 := r.2.2 }
      else
        let r := thread_step hash flowRun toolRun cfg1 s.store s.tasks s.ph1
        { s with store := r.1, tasks := r.2.1, ph1 := r.2.2 })
    { store := [], tasks := [], ph1 := ThreadPhase.start, ph2 := ThreadPhase.start }

/-! ## Concrete oracle instances used in witnesses and scenarios -/

/-- A constant stand-in hash (only determinism of the hash is ever used). -/
def const_hash : String → String := fun _ => "fp-0"

/-- A flow oracle that always succeeds. -/
def flow_ok : String → PyDict → Except String PyDict :=
  fun _ _ => Except.ok [("flow", Json.bool true)]

/-- A tool oracle that always returns a result. -/
def tool_ok : String → PyDict → ExecOutcome :=
  fun _ _ => ExecOutcome.ok [("tool", Json.bool true)]

/-- A tool oracle that always raises. -/
def tool_exc : String → PyDict → ExecOutcome :=
  fun _ _ => ExecOutcome.exc "boom"

/-! ## Concrete scenario data -/

/-- A fast-path request (read-only suffix) with a caller-supplied key. -/
def c2_req : OrchestrateRequest :=
  { intent := "ssh.exec.peek", inputs := [], mode := Mode.auto,
    callback_url := none, idempotency_key := some "dup-key" }

/-- Two copies of `c2_req` interleaved lookup → lookup → record → record:
the schedule runs each request up to its `await dispatch` suspension before
either resumes. -/
def c2_final : TwoReqState :=
  run_two const_hash flow_ok tool_ok
    { freshJob := "aa", timedOut := false, req := c2_req }
    { freshJob := "bb", timedOut := false, req := c2_req }
    [false, true, false, true]

/-- A background-path request (no fast heuristic applies) with a supplied key. -/
def c3_req : OrchestrateRequest :=
  { intent := "gmail.triage", inputs := [], mode := Mode.auto,
    callback_url := none, idempotency_key := some "dup2" }

/-- First admission of `c3_req`. -/
def c3_r1 : BodyResult := orchestrate_body const_hash flow_ok tool_ok false "cc" c3_req []

/-- The background task the first admission schedules. -/
def c3_task : BackgroundTask :=
  { job_id := "job_cc", intent := "gmail.triage", mode := Mode.auto,
    inputs := [], callback_url := none }

/-- The worker run completing the first job. -/
def c3_w : WorkerResult := execute_with_callback flow_ok tool_ok 5 c3_task c3_r1.store

/-- The identical repeat request after the background completion. -/
def c3_r2 : BodyResult := orchestrate_body const_hash flow_ok tool_ok false "dd" c3_req c3_w.store

/-- A background-path request used for the job-state scenarios. -/
def c5_req : OrchestrateRequest :=
  { intent := "memory.list", inputs := [], mode := Mode.auto,
    callback_url := none, idempotency_key := some "k5" }

/-- Its background task. -/
def c5_task : BackgroundTask :=
  { job_id := "job_ee", intent := "memory.list", mode := Mode.auto,
    inputs := [], callback_url := none }

/-- Store after admission (queued) and worker completion (succeeded). -/
def c5_store0 : Store :=
  (execute_with_callback flow_ok tool_ok 7 c5_task
    (background_enqueue "job_ee" "k5" c5_req []).store).store

/-- An ingest payload that re-labels the finished job as queued. -/
def c5_regress_payload : PyDict :=
  [("job_id", Json.str "job_ee"), ("status", Json.str "queued")]

/-- An ingest payload that is terminal with both result and error populated. -/
def c6_bad : PyDict :=
  [("job_id", Json.str "jobx"), ("status", Json.str "succeeded"),
   ("result", Json.obj [("r", Json.bool true)]), ("error", Json.str "boom")]

/-- A background task routed to the stub MCP executor (always succeeds). -/
def c6_task : BackgroundTask :=
  { job_id := "job_w6", intent := "whatever.op", mode := Mode.mcp,
    inputs := [], callback_url := none }

/-- An explicit Agent-mode request naming an unregistered intent. -/
def c10_req : OrchestrateRequest :=
  { intent := "no.such.tool", inputs := [], mode := Mode.agent,
    callback_url := none, idempotency_key := some "kx" }

/-- A background task whose auto mode resolves to Agent with an
unregistered intent. -/
def c10_task : BackgroundTask :=
  { job_id := "job_ef", intent := "memory.nope", mode := Mode.auto,
    inputs := [], callback_url := none }

/-- A fast request with a caller-supplied key, used for the timeout witness. -/
def c4_req : OrchestrateRequest :=
  { intent := "fs.read", inputs := [], mode := Mode.auto,
    callback_url := none, idempotency_key := some "k4" }

/-! ## Helper lemmas about the store and the canonical serialization -/

lemma jsonKeyEqb_eq {a b : Json} (h : jsonKeyEqb a b = true) : a = b := by
  cases a <;> cases b <;> simp_all [jsonKeyEqb]

lemma storeGet_storeSet_self (st : Store) (s : String) (d : PyDict) :
    storeGet (storeSet st (Json.str s) d) (Json.str s) = some d := by
  induction st with
  | nil => simp [storeSet, storeGet, jsonKeyEqb]
  | cons e rest ih =>
      obtain ⟨k2, d2⟩ := e
      by_cases h : jsonKeyEqb k2 (Json.str s) = true
      · simp [storeSet, storeGet, h]
      · simp [storeSet, storeGet, h, ih]

lemma storeGet_storeSet_ne (st : Store) (k q : Json) (d : PyDict)
    (h : jsonKeyEqb k q = false) :
    storeGet (storeSet st k d) q = storeGet st q := by
  induction st with
  | nil => simp [storeSet, storeGet, h]
  | cons e rest ih =>
      obtain ⟨k2, d2⟩ := e
      by_cases h2 : jsonKeyEqb k2 k = true
      · have hk : k2 = k := jsonKeyEqb_eq h2
        subst hk
        simp [storeSet, storeGet, h2, h]
      · simp [storeSet, storeGet, h2, ih]

lemma worker_payload_status (flowRun : String → PyDict → Except String PyDict)
    (toolRun : String → PyDict → ExecOutcome)
    (latency : Int) (task : BackgroundTask) (store : Store) :
    dictGet (execute_with_callback flowRun toolRun latency task store).payload "status"
        = some (Json.str "succeeded") ∨
    dictGet (execute_with_callback flowRun toolRun latency task store).payload "status"
        = some (Json.str "failed") := by
  unfold execute_with_callback
  cases hd : dispatch flowRun toolRun task.mode task.intent task.inputs <;>
    simp [hd, callback_payload, dictGet]

lemma worker_store_self (flowRun : String → PyDict → Except String PyDict)
    (toolRun : String → PyDict → ExecOutcome)
    (latency : Int) (task : BackgroundTask) (store : Store) :
    storeGet (execute_with_callback flowRun toolRun latency task store).store
        (Json.str task.job_id)
      = some (execute_with_callback flowRun toolRun latency task store).payload := by
  unfold execute_with_callback
  simp [storeGet_storeSet_self]

lemma worker_store_other (flowRun : String → PyDict → Except String PyDict)
    (toolRun : String → PyDict → ExecOutcome)
    (latency : Int) (task : BackgroundTask) (store : Store) (q : Json)
    (h : jsonKeyEqb (Json.str task.job_id) q = false) :
    storeGet (execute_with_callback flowRun toolRun latency task store).store q
      = storeGet store q := by
  unfold execute_with_callback
  simp [storeGet_storeSet_ne _ _ _ _ h]

lemma renderFields_eq_map (kvs : List (String × Json)) :
    renderFields kvs = kvs.map (fun kv => (kv.1, renderJson kv.2)) := by
  induction kvs with
  | nil => simp [renderFields]
  | cons e rest ih =>
      obtain ⟨k, v⟩ := e
      simp [renderFields, ih]

/-- Strict key ordering on rendered fields. -/
def keyLt (a b : String × String) : Prop := a.1 < b.1

instance : IsAntisymm (String × String) keyLt :=
  ⟨fun _ _ h h2 => absurd h2 (lt_asymm h)⟩

lemma sorted_keyLt_of_nodup (l : List (String × String))
    (hs : List.Sorted keyLe l) (hnd : (l.map Prod.fst).Nodup) :
    List.Sorted keyLt l := by
  have hne : l.Pairwise (fun a b => a.1 ≠ b.1) := List.pairwise_map.mp hnd
  exact (List.Pairwise.and hs hne).imp fun h => lt_of_le_of_ne h.1 h.2

lemma sortPairs_eq_of_perm (l l2 : List (String × String))
    (hp : l.Perm l2) (hnd : (l.map Prod.fst).Nodup) :
    sortPairs l = sortPairs l2 := by
  have p1 : (sortPairs l).Perm l := List.perm_insertionSort keyLe l
  have p2 : (sortPairs l2).Perm l2 := List.perm_insertionSort keyLe l2
  have hp2 : (sortPairs l).Perm (sortPairs l2) := p1.trans (hp.trans p2.symm)
  have hnd1 : ((sortPairs l).map Prod.fst).Nodup :=
    ((p1.map Prod.fst).nodup_iff).mpr hnd
  have hnd2 : ((sortPairs l2).map Prod.fst).Nodup :=
    ((p2.map Prod.fst).nodup_iff).mpr (((hp.map Prod.fst).nodup_iff).mp hnd)
  exact List.eq_of_perm_of_sorted hp2
    (sorted_keyLt_of_nodup _ (List.sorted_insertionSort keyLe l) hnd1)
    (sorted_keyLt_of_nodup _ (List.sorted_insertionSort keyLe l2) hnd2)

lemma sortPairs_renderFields_perm (l l2 : List (String × Json))
    (hp : l.Perm l2) (hnd : (l.map Prod.fst).Nodup) :
    sortPairs (renderFields l) = sortPairs (renderFields l2) := by
  have hf : (renderFields l).Perm (renderFields l2) := by
    rw [renderFields_eq_map, renderFields_eq_map]
    exact hp.map _
  have hnd2 : ((renderFields l).map Prod.fst).Nodup := by
    rw [renderFields_eq_map]
    simpa [List.map_map, Function.comp] using hnd
  exact sortPairs_eq_of_perm _ _ hf hnd2

lemma render_obj_perm (l l2 : List (String × Json))
    (hp : l.Perm l2) (hnd : (l.map Prod.fst).Nodup) :
    renderJson (Json.obj l) = renderJson (Json.obj l2) := by
  simp [renderJson, sortPairs_renderFields_perm l l2 hp hnd]

/-! ## Claim theorems -/

/-- C1: Every run of the `orchestrate` handler evaluates
`await api_auth(authorization)` where `authorization` is unbound in the
handler scope, so the run fails with an unhandled `NameError` before any
idempotency lookup, dispatch call, background scheduling, or job-store
write; the error-free path of the handler is unreachable. -/
theorem c1_handler_always_name_error (hash : String → String)
    (flowRun : String → PyDict → Except String PyDict)
    (toolRun : String → PyDict → ExecOutcome)
    (timedOut authOk : Bool) (freshJob : String)
    (req : OrchestrateRequest) (store : Store) :
    orchestrate_handler hash flowRun toolRun timedOut authOk freshJob req store =
      { response := Except.error (PyFailure.nameError "authorization"),
        store := store, scheduled := none, dispatchCalls := 0 } := by
  have h : handler_scope_has "authorization" = false := rfl
  simp [orchestrate_handler, h]

/-- C7: `auto_select_mode` is a pure total function of the intent (the
inputs are never consulted), agrees everywhere with the ordered first-match
policy of the spec, and yields the four documented examples. -/
theorem c7_mode_resolver_total_first_match :
    (∀ (intent : String) (inputs : PyDict),
       auto_select_mode intent inputs = mode_policy intent) ∧
    auto_select_mode "memory.search" [] = Mode.agent ∧
    auto_select_mode "gmail.triage" [] = Mode.flow ∧
    auto_select_mode "ssh.exec.peek" [] = Mode.agent ∧
    auto_select_mode "unknown.namespace.op" [] = Mode.flow := by
  refine ⟨?_, rfl, rfl, rfl, rfl⟩
  intro intent inputs
  unfold auto_select_mode mode_policy
  cases h1 : (strEnds intent ".peek" || strEnds intent ".read") <;>
  cases h2 : strStarts intent "memory." <;>
  cases h3 : (strStarts intent "gmail." || strStarts intent "digest."
               || strStarts intent "workflow.") <;>
  cases h4 : strStarts intent "fs." <;>
  simp [h1, h2, h3, h4]

/-- C4: A fast-path-eligible request that misses the idempotency cache and
whose synchronous attempt times out gets a non-error `"queued"` response
carrying the job id assigned at admission; the job is stored queued and
execution is rescheduled as a background task; the timeout is not surfaced
as an error. -/
theorem c4_fast_timeout_falls_back_queued (hash : String → String)
    (flowRun : String → PyDict → Except String PyDict)
    (toolRun : String → PyDict → ExecOutcome)
    (freshJob : String) (req : OrchestrateRequest) (store : Store)
    (hmiss : find_cached store (compute_idem_key hash req) = none)
    (hfast : is_fast_intent req = true) :
    orchestrate_body hash flowRun toolRun true freshJob req store =
      { response := Except.ok
          { job_id := Json.str ("job_" ++ freshJob), status := Json.str "queued",
            result := none, error := none,
            will_callback := req.callback_url.isSome,
            idempotency_key := some (compute_idem_key hash req) },
        store := storeSet store (Json.str ("job_" ++ freshJob))
          (queued_record ("job_" ++ freshJob) req.intent (compute_idem_key hash req)),
        scheduled := some
          { job_id := "job_" ++ freshJob, intent := req.intent, mode := req.mode,
            inputs := req.inputs, callback_url := req.callback_url },
        dispatchCalls := 1 } := by
  unfold orchestrate_body orchestrate_seg1
  simp [hmiss, hfast, background_enqueue]

/-- Witness for C4 at a concrete fast request with a supplied key. -/
theorem c4_fast_timeout_falls_back_queued_witness :
    orchestrate_body const_hash flow_ok tool_ok true "ab" c4_req [] =
      { response := Except.ok
          { job_id := Json.str "job_ab", status := Json.str "queued",
            result := none, error := none, will_callback := false,
            idempotency_key := some "k4" },
        store := [(Json.str "job_ab", queued_record "job_ab" "fs.read" "k4")],
        scheduled := some
          { job_id := "job_ab", intent := "fs.read", mode := Mode.auto,
            inputs := [], callback_url := none },
        dispatchCalls := 1 } :=
  c4_fast_timeout_falls_back_queued const_hash flow_ok tool_ok "ab" c4_req [] rfl rfl

/-- C10: Dispatching an unregistered intent in Agent mode is classified as
`IntentNotFoundError`: the fast path surfaces it as a 404 with the
not-found message and no store write, background scheduling, or retry; the
background path records a Failed job carrying that error with a single
dispatch call. -/
theorem c10_unregistered_agent_intent_not_found :
    (∀ (hash : String → String)
       (flowRun : String → PyDict → Except String PyDict)
       (toolRun : String → PyDict → ExecOutcome)
       (freshJob : String) (req : OrchestrateRequest) (store : Store),
       find_cached store (compute_idem_key hash req) = none →
       req.mode = Mode.agent →
       registered req.intent = false →
       orchestrate_body hash flowRun toolRun false freshJob req store =
         { response := Except.error
             (PyFailure.http 404 ("Intent not found: " ++ not_found_msg req.intent)),
           store := store, scheduled := none, dispatchCalls := 1 }) ∧
    (∀ (flowRun : String → PyDict → Except String PyDict)
       (toolRun : String → PyDict → ExecOutcome)
       (latency : Int) (task : BackgroundTask) (store : Store),
       (if task.mode = Mode.auto then auto_select_mode task.intent task.inputs
        else task.mode) = Mode.agent →
       registered task.intent = false →
       execute_with_callback flowRun toolRun latency task store =
         { store := storeSet store (Json.str task.job_id)
             (callback_payload task.job_id task.intent "failed" none
               (some (Json.str ("Intent not found: " ++ not_found_msg task.intent))) latency),
           payload := callback_payload task.job_id task.intent "failed" none
             (some (Json.str ("Intent not found: " ++ not_found_msg task.intent))) latency,
           dispatchCalls := 1 }) := by
  constructor
  · intro hash flowRun toolRun freshJob req store hmiss hmode hreg
    unfold orchestrate_body orchestrate_seg1
    simp [hmiss, is_fast_intent, hmode, dispatch, run_agent, hreg, fast_completion]
  · intro flowRun toolRun latency task store hsel hreg
    unfold execute_with_callback dispatch
    simp [hsel, run_agent, hreg]

/-- Witness for C10: an explicit Agent-mode request for `no.such.tool` on
the fast path, and an auto-resolved Agent task for `memory.nope` on the
background path. -/
theorem c10_unregistered_agent_intent_not_found_witness :
    orchestrate_body const_hash flow_ok tool_ok false "cd" c10_req [] =
      { response := Except.error
          (PyFailure.http 404 ("Intent not found: " ++ not_found_msg "no.such.tool")),
        store := [], scheduled := none, dispatchCalls := 1 } ∧
    execute_with_callback flow_ok tool_ok 3 c10_task [] =
      { store := [(Json.str "job_ef",
          callback_payload "job_ef" "memory.nope" "failed" none
            (some (Json.str ("Intent not found: " ++ not_found_msg "memory.nope"))) 3)],
        payload := callback_payload "job_ef" "memory.nope" "failed" none
          (some (Json.str ("Intent not found: " ++ not_found_msg "memory.nope"))) 3,
        dispatchCalls := 1 } :=
  ⟨c10_unregistered_agent_intent_not_found.1 const_hash flow_ok tool_ok "cd" c10_req [] rfl rfl rfl,
   c10_unregistered_agent_intent_not_found.2 flow_ok tool_ok 3 c10_task [] rfl rfl⟩

/-- C2 (violated by the code): two concurrent fast-path requests carrying
the same supplied idempotency key, interleaved so that both cache scans run
before either store write (both handlers are suspended at
`await asyncio.wait_for(dispatch ...)` between scan and write), both miss
the cache and both create jobs: the final store holds two records under the
key and the two callers receive different job ids — the lookup-then-record
is not atomic and no single-flight guarantee holds. -/
theorem c2_concurrent_same_key_two_jobs :
    c2_final.store.length = 2 ∧
    c2_final.store.map (fun e => matches_idem e.2 "dup-key") = [true, true] ∧
    c2_final.ph1 = ThreadPhase.finished (Except.ok
      { job_id := Json.str "job_aa", status := Json.str "succeeded",
        result := some (Json.obj [("tool", Json.bool true)]), error := none,
        will_callback := false, idempotency_key := some "dup-key" }) ∧
    c2_final.ph2 = ThreadPhase.finished (Except.ok
      { job_id := Json.str "job_bb", status := Json.str "succeeded",
        result := some (Json.obj [("tool", Json.bool true)]), error := none,
        will_callback := false, idempotency_key := some "dup-key" }) ∧
    jsonKeyEqb (Json.str "job_aa") (Json.str "job_bb") = false :=
  ⟨rfl, rfl, rfl, rfl, rfl⟩

/-- C3 (violated by the code): a background-path job admitted under an
idempotency key is stored queued with the key; the worker completion
overwrites its record with a `JobCallbackPayload` dict that has no
`idempotency_key` field, so an identical later request misses the cache
scan and creates a second job instead of returning the first job id. -/
theorem c3_background_completion_loses_idempotency :
    c3_r1.response = Except.ok
      { job_id := Json.str "job_cc", status := Json.str "queued",
        result := none, error := none, will_callback := false,
        idempotency_key := some "dup2" } ∧
    c3_r1.scheduled = some c3_task ∧
    matches_idem (queued_record "job_cc" "gmail.triage" "dup2") "dup2" = true ∧
    store_status c3_w.store (Json.str "job_cc") = some (Json.str "succeeded") ∧
    dictGet c3_w.payload "idempotency_key" = none ∧
    c3_r2.response = Except.ok
      { job_id := Json.str "job_dd", status := Json.str "queued",
        result := none, error := none, will_callback := false,
        idempotency_key := some "dup2" } ∧
    c3_r2.store.length = 2 :=
  ⟨rfl, rfl, rfl, rfl, rfl, rfl, rfl⟩

/-- C5 counterexample: the job store moves a background job from queued
straight to succeeded (the worker records no Running state), and a
callback-ingest payload naming the finished job then moves it out of its
terminal state back to queued — refuting both the Queued→Running step and
the no-exit-from-terminal clause of the claim. -/
theorem c5_ctex_ingest_regresses_terminal :
    store_status (background_enqueue "job_ee" "k5" c5_req []).store (Json.str "job_ee")
      = some (Json.str "queued") ∧
    store_status c5_store0 (Json.str "job_ee") = some (Json.str "succeeded") ∧
    ingest_callback c5_regress_payload c5_store0 =
      Except.ok ([("status", Json.str "ok"), ("job_id", Json.str "job_ee")],
        [(Json.str "job_ee", c5_regress_payload)]) ∧
    store_status (ingest_store c5_regress_payload c5_store0) (Json.str "job_ee")
      = some (Json.str "queued") :=
  ⟨rfl, rfl, rfl, rfl⟩

/-- C5 (amended): the background worker writes exactly one record — its own
job id — whose status is terminal (`succeeded` or `failed`, never
`running`), and leaves every other record unchanged; callback ingestion,
however, overwrites records unconditionally and can move a job out of a
terminal state (shown by the counterexample). -/
theorem c5_amended_worker_terminal_single_writer
    (flowRun : String → PyDict → Except String PyDict)
    (toolRun : String → PyDict → ExecOutcome)
    (latency : Int) (task : BackgroundTask) (store : Store) :
    (dictGet (execute_with_callback flowRun toolRun latency task store).payload "status"
        = some (Json.str "succeeded") ∨
     dictGet (execute_with_callback flowRun toolRun latency task store).payload "status"
        = some (Json.str "failed")) ∧
    storeGet (execute_with_callback flowRun toolRun latency task store).store
        (Json.str task.job_id)
      = some (execute_with_callback flowRun toolRun latency task store).payload ∧
    (∀ q : Json, jsonKeyEqb (Json.str task.job_id) q = false →
       storeGet (execute_with_callback flowRun toolRun latency task store).store q
         = storeGet store q) :=
  ⟨worker_payload_status flowRun toolRun latency task store,
   worker_store_self flowRun toolRun latency task store,
   fun q h => worker_store_other flowRun toolRun latency task store q h⟩

/-- Witness for C5 (amended) at a concrete worker run over a store that
also holds an unrelated record. -/
theorem c5_amended_worker_terminal_single_writer_witness :
    (dictGet (execute_with_callback flow_ok tool_ok 7 c5_task
        [(Json.str "job_zz", [])]).payload "status" = some (Json.str "succeeded") ∨
     dictGet (execute_with_callback flow_ok tool_ok 7 c5_task
        [(Json.str "job_zz", [])]).payload "status" = some (Json.str "failed")) ∧
    storeGet (execute_with_callback flow_ok tool_ok 7 c5_task
        [(Json.str "job_zz", [])]).store (Json.str "job_ee")
      = some (execute_with_callback flow_ok tool_ok 7 c5_task
          [(Json.str "job_zz", [])]).payload ∧
    storeGet (execute_with_callback flow_ok tool_ok 7 c5_task
        [(Json.str "job_zz", [])]).store (Json.str "job_zz")
      = storeGet [(Json.str "job_zz", [])] (Json.str "job_zz") :=
  have t := c5_amended_worker_terminal_single_writer flow_ok tool_ok 7 c5_task
    [(Json.str "job_zz", ([] : PyDict))]
  ⟨t.1, t.2.1, t.2.2 (Json.str "job_zz") (by decide)⟩

/-- C6 counterexample: the callback-ingestion endpoint accepts and stores a
payload whose status is terminal while both `result` and `error` are
populated, so the claimed mutual exclusion does not cover ingested records. -/
theorem c6_ctex_ingested_both_populated :
    ingest_callback c6_bad [] =
      Except.ok ([("status", Json.str "ok"), ("job_id", Json.str "jobx")],
        [(Json.str "jobx", c6_bad)]) ∧
    dictGet c6_bad "status" = some (Json.str "succeeded") ∧
    populated c6_bad "result" = true ∧
    populated c6_bad "error" = true :=
  ⟨rfl, rfl, rfl, rfl⟩

/-- C6 (amended): terminal records produced by the synchronous success path
and by the background worker populate exactly one of `result`/`error`;
records stored by callback ingestion are unconstrained (see the
counterexample). -/
theorem c6_amended_result_error_exclusive :
    (∀ (r : PyDict) (j i : String) (req : OrchestrateRequest) (store : Store),
       storeGet (fast_completion (DispatchOutcome.ok r) j i req store).store (Json.str j)
         = some (sync_success_record j req.intent r i) ∧
       dictGet (sync_success_record j req.intent r i) "status" = some (Json.str "succeeded") ∧
       populated (sync_success_record j req.intent r i) "result" = true ∧
       populated (sync_success_record j req.intent r i) "error" = false) ∧
    (∀ (flowRun : String → PyDict → Except String PyDict)
       (toolRun : String → PyDict → ExecOutcome)
       (latency : Int) (task : BackgroundTask) (store : Store),
       (dictGet (execute_with_callback flowRun toolRun latency task store).payload "status"
          = some (Json.str "succeeded") →
        populated (execute_with_callback flowRun toolRun latency task store).payload "result" = true ∧
        populated (execute_with_callback flowRun toolRun latency task store).payload "error" = false) ∧
       (dictGet (execute_with_callback flowRun toolRun latency task store).payload "status"
          = some (Json.str "failed") →
        populated (execute_with_callback flowRun toolRun latency task store).payload "error" = true ∧
        populated (execute_with_callback flowRun toolRun latency task store).payload "result" = false)) := by
  constructor
  · intro r j i req store
    refine ⟨?_, rfl, rfl, rfl⟩
    simp [fast_completion, storeGet_storeSet_self]
  · intro flowRun toolRun latency task store
    unfold execute_with_callback
    cases hd : dispatch flowRun toolRun task.mode task.intent task.inputs <;>
      constructor <;> intro hs <;>
      simp_all [callback_payload, dictGet, populated]

/-- Witness for C6 (amended): a worker run through the stub MCP executor
(succeeds) and a concrete synchronous record. -/
theorem c6_amended_result_error_exclusive_witness :
    (populated (execute_with_callback flow_ok tool_ok 2 c6_task []).payload "result" = true ∧
     populated (execute_with_callback flow_ok tool_ok 2 c6_task []).payload "error" = false) ∧
    populated (sync_success_record "job_a" "fs.read" [("x", Json.null)] "k") "result" = true :=
  have t := c6_amended_result_error_exclusive
  ⟨(t.2 flow_ok tool_ok 2 c6_task []).1 rfl,
   (t.1 [("x", Json.null)] "job_a" "k"
     { intent := "fs.read", inputs := [], mode := Mode.auto,
       callback_url := none, idempotency_key := none } []).2.2.1⟩

/-- C8 counterexample: a caller-supplied key is not always used verbatim —
Python `or` treats the supplied empty-string key as absent, so the derived
fingerprint is used instead of the supplied key. -/
theorem c8_ctex_empty_supplied_key_not_verbatim :
    ({ intent := "x", inputs := [], mode := Mode.auto, callback_url := none,
       idempotency_key := some "" } : OrchestrateRequest).idempotency_key = some "" ∧
    compute_idem_key (fun _ => "deadbeef")
      { intent := "x", inputs := [], mode := Mode.auto, callback_url := none,
        idempotency_key := some "" } = "deadbeef" ∧
    (("deadbeef" : String) == "") = false :=
  ⟨rfl, rfl, rfl⟩

/-- C8 (amended): a non-empty caller-supplied key is used verbatim (an
empty supplied key is treated as absent); the derived key is a
deterministic function of intent and inputs, invariant under reordering of
the inputs map (unique keys). -/
theorem c8_amended_idempotency_key :
    (∀ (hash : String → String) (req : OrchestrateRequest) (k : String),
       req.idempotency_key = some k → k ≠ "" → compute_idem_key hash req = k) ∧
    (∀ (hash : String → String) (intent : String) (ins ins2 : PyDict),
       ins.Perm ins2 → (ins.map Prod.fst).Nodup →
       generate_idempotency_key hash intent ins
         = generate_idempotency_key hash intent ins2) := by
  constructor
  · intro hash req k hk hne
    simp [compute_idem_key, hk, hne]
  · intro hash intent ins ins2 hp hnd
    unfold generate_idempotency_key canonical_dumps
    simp [renderJson, renderFields, sortPairs_renderFields_perm ins ins2 hp hnd]

/-- Witness for C8 (amended): a verbatim non-empty key, and reordering a
two-entry inputs map leaves the derived key unchanged. -/
theorem c8_amended_idempotency_key_witness :
    compute_idem_key const_hash
      { intent := "x", inputs := [], mode := Mode.auto, callback_url := none,
        idempotency_key := some "mykey" } = "mykey" ∧
    generate_idempotency_key const_hash "x" [("b", Json.null), ("a", Json.bool true)]
      = generate_idempotency_key const_hash "x" [("a", Json.bool true), ("b", Json.null)] :=
  ⟨c8_amended_idempotency_key.1 const_hash _ "mykey" rfl (by decide),
   c8_amended_idempotency_key.2 const_hash "x" _ _ (List.Perm.swap _ _ _) (by decide)⟩

/-- C9 counterexample: with the confirmation flag present but false, the
`ssh.exec` gate still returns the not-executed payload for every tool
behavior — the underlying action is not invoked although the flag is
present, and invoking it would have returned a different result. -/
theorem c9_ctex_present_false_flag_blocks :
    (dictGet [("confirm_dangerous", Json.bool false)] "confirm_dangerous").isSome = true ∧
    run_agent tool_ok "ssh.exec" [("confirm_dangerous", Json.bool false)]
      = Except.ok (dry_run_result [("confirm_dangerous", Json.bool false)]) ∧
    run_agent tool_exc "ssh.exec" [("confirm_dangerous", Json.bool false)]
      = Except.ok (dry_run_result [("confirm_dangerous", Json.bool false)]) ∧
    agent_tool_call tool_ok "ssh.exec" [("confirm_dangerous", Json.bool false)]
      = Except.ok [("tool", Json.bool true)] ∧
    dictGet (dry_run_result [("confirm_dangerous", Json.bool false)]) "dry_run"
      = some (Json.bool true) ∧
    dictGet [("tool", Json.bool true)] "dry_run" = none :=
  ⟨rfl, rfl, rfl, rfl, rfl, rfl⟩

/-- C9 (amended): for the destructive intent `ssh.exec`, a missing-or-falsy
confirmation flag yields the non-error not-executed payload (which echoes
the supplied inputs) without invoking the tool for any tool behavior; a
truthy flag hands execution to the underlying tool call. -/
theorem c9_amended_destructive_gate
    (toolRun : String → PyDict → ExecOutcome) (inputs : PyDict) :
    (pyTruthyOpt (dictGet inputs "confirm_dangerous") = false →
       run_agent toolRun "ssh.exec" inputs = Except.ok (dry_run_result inputs) ∧
       dictGet (dry_run_result inputs) "would_execute" = some (Json.obj inputs)) ∧
    (pyTruthyOpt (dictGet inputs "confirm_dangerous") = true →
       run_agent toolRun "ssh.exec" inputs = agent_tool_call toolRun "ssh.exec" inputs) := by
  have hreg : registered "ssh.exec" = true := rfl
  constructor
  · intro h
    refine ⟨?_, rfl⟩
    simp [run_agent, hreg, h]
  · intro h
    simp [run_agent, hreg, h]

/-- Witness for C9 (amended): the flag absent blocks with the echo payload;
the flag set true hands over to the tool call. -/
theorem c9_amended_destructive_gate_witness :
    run_agent tool_ok "ssh.exec" [] = Except.ok (dry_run_result []) ∧
    run_agent tool_ok "ssh.exec" [("confirm_dangerous", Json.bool true)]
      = agent_tool_call tool_ok "ssh.exec" [("confirm_dangerous", Json.bool true)] :=
  ⟨((c9_amended_destructive_gate tool_ok []).1 rfl).1,
   (c9_amended_destructive_gate tool_ok [("confirm_dangerous", Json.bool true)]).2 rfl⟩
